import Mathlib

/-!
Verification of the Vintex Clinic backend (src/server.js and the revision
copies under src/unnamed and src/.history).

The data model and the request handlers for appointments (`citas`) are
embedded from the source: the Zod validation schemas (`citaSchemaBase` in
src/server.js lines 58-65, `citaBaseSchema`/`citaUpdateSchema` in
src/unnamed/part_000 lines 105-123), the client-resolution step of
POST /api/citas (src/server.js lines 294-319), the partial update of
PATCH /api/citas/:id (src/server.js lines 343-364) and the delete handler
(src/server.js lines 366-379).

The scheduling-conflict validator itself is referenced but not present in
any source file: src/server.js lines 322 and 353 read
"Lógica de validación de conflicto (omito aquí por brevedad, pero existe
en el original)".  Those definitions are therefore modelled from the spec
(spec.md §4.1) and are marked as such in their doc comments.

Time is represented as an absolute instant in minutes (an integer), the
spec's "start instant (absolute point in time, timezone-normalized)";
`fecha_hora` strings of the source stand for such instants after the
ISO-8601 regex validation and normalization.
-/

namespace Vintex

/-- Appointment status enum: `estado` in `citaSchemaBase`
(src/server.js line 62): `['programada', 'confirmada', 'cancelada',
'completada', 'no_asistio']`. -/
inductive Estado
  | programada
  | confirmada
  | cancelada
  | completada
  | noAsistio
deriving DecidableEq, Repr

/-- A stored row of the `citas` table, with the columns written by the
insert of POST /api/citas (src/unnamed/part_000 lines 357-367): id,
cliente_id, doctor_id, fecha_hora, timezone, descripcion, estado,
duracion_minutos. -/
structure Cita where
  id : Nat
  cliente_id : Nat
  doctor_id : Nat
  fecha_hora : Int
  duracion_minutos : Nat
  estado : Estado
  descripcion : Option String
  timezone : Option String
deriving DecidableEq, Repr

/-- The appointment store: the rows of the `citas` table. -/
abbrev Store := List Cita

/-- Modelled from the spec: half-open interval overlap, the overlap policy
of spec.md §4.1 — two intervals `[s1,e1)` and `[s2,e2)` conflict iff
`s1 < e2 AND s2 < e1`.  The conflict-check code is absent from src
(src/server.js line 322 says it is omitted). -/
def overlaps (s1 e1 s2 e2 : Int) : Bool :=
  decide (s1 < e2) && decide (s2 < e1)

/-- Modelled from the spec: the row filter of `checkConflict`'s store query
(spec.md §4.1) — `doctor_id == doctorId`, `status != cancelled`,
`id != excludeAppointmentId` (when given), and the stored interval
`[fecha_hora, fecha_hora + duracion_minutos)` overlaps the candidate
interval `[s, e)`. -/
def conflictsWith (doctorId : Nat) (s e : Int) (excludeId : Option Nat)
    (c : Cita) : Bool :=
  decide (c.doctor_id = doctorId) &&
  !(decide (c.estado = Estado.cancelada)) &&
  (match excludeId with
   | some ex => !(decide (c.id = ex))
   | none => true) &&
  overlaps s e c.fecha_hora (c.fecha_hora + (c.duracion_minutos : Int))

/-- Result of the conflict validator (spec.md §4.1): `NoConflict` or
`Conflict(conflictingAppointmentIds)`. -/
inductive ConflictResult
  | NoConflict
  | Conflict (conflictingAppointmentIds : List Nat)
deriving DecidableEq, Repr

/-- Modelled from the spec: `checkConflict(doctorId, startInstant,
durationMinutes, excludeAppointmentId?)` of spec.md §4.1, the validator
whose implementation src/server.js line 322 omits.  Computes
`endInstant = startInstant + durationMinutes`, queries the store for
conflicting appointments, and returns `NoConflict` when none exist,
otherwise `Conflict` with their identifiers. -/
def checkConflict (store : Store) (doctorId : Nat) (startInstant : Int)
    (durationMinutes : Nat) (excludeAppointmentId : Option Nat) :
    ConflictResult :=
  let endInstant := startInstant + (durationMinutes : Int)
  let conflicting :=
    store.filter (conflictsWith doctorId startInstant endInstant
      excludeAppointmentId)
  if conflicting.isEmpty then ConflictResult.NoConflict
  else ConflictResult.Conflict (conflicting.map Cita.id)

/-- Outcome of the booking operation's conflict step (spec.md §4.1 step 3):
either the appointment is written, or the request is rejected with
`ScheduleConflict` naming the overlapping appointment identifiers. -/
inductive BookOutcome
  | booked
  | scheduleConflict (ids : List Nat)
deriving DecidableEq, Repr

/-- Modelled from the spec: the create path of `bookOrReschedule`
(spec.md §4.1 steps 2-4) — call the conflict validator with the candidate
interval; on `Conflict` reject with `ScheduleConflict` and do not write;
otherwise insert the appointment.  Returns the outcome together with the
resulting store. -/
def bookOp (store : Store) (c : Cita) : BookOutcome × Store :=
  match checkConflict store c.doctor_id c.fecha_hora c.duracion_minutos
      none with
  | ConflictResult.NoConflict => (BookOutcome.booked, c :: store)
  | ConflictResult.Conflict ids => (BookOutcome.scheduleConflict ids, store)

/-- Modelled from the spec: a sequence of booking operations run against an
initially empty store; a rejected booking leaves the store unchanged
(spec.md §8 P1 quantifies over such sequences). -/
def runBookings (reqs : List Cita) : Store :=
  reqs.foldl (fun st c => (bookOp st c).2) []

/-- A stored row of the `clientes` table, the columns used by the
client-resolution insert of POST /api/citas (src/server.js lines 299-308). -/
structure Cliente where
  id : Nat
  nombre : String
  dni : String
  telefono : String
  activo : Bool
deriving DecidableEq, Repr

/-- Outcome of the client-resolution step of POST /api/citas
(src/server.js lines 294-319): use the given id, create a new client,
409 "Ya existe un cliente con ese DNI" on the `23505` uniqueness
violation, or 400 "Debe seleccionar un cliente existente o crear uno
nuevo" when neither path applies. -/
inductive ClienteResolution
  | usedExisting (clienteId : Nat)
  | createdNew (clienteId : Nat)
  | clientAlreadyExists
  | clientRequired
deriving DecidableEq, Repr

/-- Client-resolution step of POST /api/citas (src/server.js lines
294-319).  `cliente_id` passed Zod as a positive integer, so it is truthy
exactly when present; the new-client strings are truthy when present and
non-empty (JS `&&` on `validatedData.new_client_name &&
validatedData.new_client_dni`).  The store signals Postgres error `23505`
on the `dni` uniqueness violation, i.e. exactly when a client with that
`dni` already exists; `freshId` is the id the store assigns to a newly
inserted client. -/
def resolveCliente (clients : List Cliente) (freshId : Nat)
    (cliente_id : Option Nat) (new_client_name new_client_dni : Option String) :
    ClienteResolution :=
  match cliente_id with
  | some cid => ClienteResolution.usedExisting cid
  | none =>
    match new_client_name, new_client_dni with
    | some nm, some dni =>
      if nm = "" ∨ dni = "" then ClienteResolution.clientRequired
      else if clients.any (fun cl => cl.dni == dni) then
        ClienteResolution.clientAlreadyExists
      else ClienteResolution.createdNew freshId
    | _, _ => ClienteResolution.clientRequired

/-- Body of PATCH /api/citas/:id after `citaSchemaBase.partial()`
validation (src/server.js lines 349-350): every column is optional, and a
column absent from the body is absent from the parsed object (Zod's
`.partial()` short-circuits on `undefined`), so the store update touches
only the supplied columns.  `descripcion` is nullable, so supplying `null`
is distinct from omitting the field. -/
structure CitaPatch where
  fecha_hora : Option Int := none
  timezone : Option String := none
  descripcion : Option (Option String) := none
  estado : Option Estado := none
  duracion_minutos : Option Nat := none
  doctor_id : Option Nat := none
deriving DecidableEq, Repr

/-- `Object.keys(validatedData).length === 0` check of the PATCH handler
(src/server.js line 351). -/
def CitaPatch.isEmpty (p : CitaPatch) : Bool :=
  p.fecha_hora.isNone && p.timezone.isNone && p.descripcion.isNone &&
  p.estado.isNone && p.duracion_minutos.isNone && p.doctor_id.isNone

/-- The store's partial update of one `citas` row
(`supabase.from('citas').update(validatedData)`, src/server.js line 355):
each supplied column is set, every other column keeps its stored value. -/
def applyPatch (c : Cita) (p : CitaPatch) : Cita :=
  { c with
    fecha_hora := p.fecha_hora.getD c.fecha_hora
    timezone := match p.timezone with
      | some t => some t
      | none => c.timezone
    descripcion := p.descripcion.getD c.descripcion
    estado := p.estado.getD c.estado
    duracion_minutos := p.duracion_minutos.getD c.duracion_minutos
    doctor_id := p.doctor_id.getD c.doctor_id }

/-- Outcome of PATCH /api/citas/:id (src/server.js lines 343-364):
200 with the updated store, 400 "ID de cita inválido", 400 "No se
proporcionaron datos", or 404 "Cita no encontrada". -/
inductive UpdateResult
  | ok (updated : Store)
  | invalidId
  | noData
  | notFound
deriving DecidableEq, Repr

/-- PATCH /api/citas/:id (src/server.js lines 343-364): the id must parse
as a positive integer, the patch must supply at least one field, the rows
matching the id are updated in place, and a missing row is a 404. -/
def updateCita (store : Store) (id : Nat) (p : CitaPatch) : UpdateResult :=
  if id = 0 then UpdateResult.invalidId
  else if p.isEmpty then UpdateResult.noData
  else if store.any (fun c => c.id == id) then
    UpdateResult.ok (store.map (fun c =>
      if c.id == id then applyPatch c p else c))
  else UpdateResult.notFound

/-- A patch supplying only `estado`, the direct status set of
PATCH /api/citas/:id. -/
def estadoPatch (t : Estado) : CitaPatch :=
  { estado := some t }

/-- Outcome of DELETE /api/citas/:id (src/server.js lines 366-379):
204 No Content, or 400 "ID de cita inválido". -/
inductive DeleteResult
  | noContent
  | invalidId
deriving DecidableEq, Repr

/-- DELETE /api/citas/:id (src/server.js lines 366-379): the id must parse
as a positive integer; the store deletes the rows matching the id (a
delete matching no row is not an error) and the handler responds 204. -/
def deleteCita (store : Store) (id : Nat) : DeleteResult × Store :=
  if id = 0 then (DeleteResult.invalidId, store)
  else (DeleteResult.noContent, store.filter (fun c => !(c.id == id)))

/-- The validated body of POST /api/citas (`citaCreateSchema`,
src/unnamed/part_000 lines 105-119) before defaults are applied:
`duracion_minutos` and `estado` as supplied by the caller, `none` when the
field is absent. -/
structure CitaCreateBody where
  fecha_hora : Int
  timezone : Option String := none
  descripcion : Option String := none
  estado : Option Estado := none
  duracion_minutos : Option Int := none
  doctor_id : Nat
deriving DecidableEq, Repr

/-- `duracion_minutos: z.number().int().positive().default(30)`
(src/unnamed/part_000 line 110): an absent field parses to the default 30;
a supplied value must be a positive integer, otherwise validation fails. -/
def parseDuracionMinutos (input : Option Int) : Option Nat :=
  match input with
  | none => some 30
  | some n => if 0 < n then some n.toNat else none

/-- The `citas` row inserted by POST /api/citas after validation
(src/unnamed/part_000 lines 356-367), given the resolved client id and the
row id the store assigns; `none` when validation of `duracion_minutos`
fails.  `estado` defaults to `programada`
(src/unnamed/part_000 line 109). -/
def citaInsertRow (body : CitaCreateBody) (clienteId rowId : Nat) :
    Option Cita :=
  match parseDuracionMinutos body.duracion_minutos with
  | none => none
  | some dur =>
    some { id := rowId
           cliente_id := clienteId
           doctor_id := body.doctor_id
           fecha_hora := body.fecha_hora
           duracion_minutos := dur
           estado := body.estado.getD Estado.programada
           descripcion := body.descripcion
           timezone := body.timezone }

/-- Absence of double-booking between two stored appointments: if they are
for the same doctor and neither is cancelled, their half-open
`[start, start+duration)` intervals do not overlap. -/
def nonOverlapping (c1 c2 : Cita) : Prop :=
  c1.doctor_id = c2.doctor_id → c1.estado ≠ Estado.cancelada →
  c2.estado ≠ Estado.cancelada →
  ¬(c1.fecha_hora < c2.fecha_hora + (c2.duracion_minutos : Int) ∧
    c2.fecha_hora < c1.fecha_hora + (c1.duracion_minutos : Int))

/-- Sample stored appointment: doctor 7, start instant 840, 30 minutes. -/
def citaA : Cita :=
  { id := 1
    cliente_id := 10
    doctor_id := 7
    fecha_hora := 840
    duracion_minutos := 30
    estado := Estado.programada
    descripcion := none
    timezone := none }

/-- Sample candidate overlapping `citaA` (starts 15 minutes into it). -/
def citaB : Cita :=
  { citaA with id := 2, fecha_hora := 855 }

/-- Sample stored appointment disjoint from `citaA` (starts at 900). -/
def citaD : Cita :=
  { citaA with id := 4, fecha_hora := 900 }

/-- Sample stored appointment with status `completada`. -/
def citaCompleted : Cita :=
  { citaA with id := 3, estado := Estado.completada }

/-- Sample stored client. -/
def clienteAna : Cliente :=
  { id := 4, nombre := "Ana", dni := "123", telefono := "", activo := true }

/-- Sample create body with no `duracion_minutos` supplied. -/
def bodyNoDur : CitaCreateBody :=
  { fecha_hora := 840, doctor_id := 7 }

/-- Sample patch supplying only `fecha_hora`. -/
def fechaPatch : CitaPatch :=
  { fecha_hora := some 900 }

/-- Sample patch moving an appointment's start to 855, into `citaA`'s
interval. -/
def fechaPatch855 : CitaPatch :=
  { fecha_hora := some 855 }

/-- Outcome of the reschedule path of the booking operation: 200 with the
patched store, rejection with `ScheduleConflict` naming the overlapping
appointment identifiers (spec.md §4.1 step 3), or the PATCH handler's
400 (bad id), 400 (empty body) and 404 outcomes
(src/server.js lines 343-364). -/
inductive RescheduleOutcome
  | rescheduled
  | scheduleConflict (ids : List Nat)
  | invalidId
  | noData
  | notFound
deriving DecidableEq, Repr

/-- Modelled from the spec: the reschedule path of `bookOrReschedule`
(spec.md §4.1 steps 2-4).  The handler shell is embedded from
PATCH /api/citas/:id (src/server.js lines 343-364: positive-id check,
non-empty patch, 404 when no row matches); the conflict step that
src/server.js line 353 omits ("Lógica de validación de conflicto al
actualizar (omito aquí por brevedad, pero existe en el original)") is
modelled from the spec: the candidate interval is the stored row with the
supplied fields applied, the validator is called with the appointment's
own id excluded, and on `Conflict` the handler rejects without writing. -/
def rescheduleOp (store : Store) (id : Nat) (p : CitaPatch) :
    RescheduleOutcome × Store :=
  if id = 0 then (RescheduleOutcome.invalidId, store)
  else if p.isEmpty then (RescheduleOutcome.noData, store)
  else
    match store.find? (fun b => b.id == id) with
    | none => (RescheduleOutcome.notFound, store)
    | some a =>
      match checkConflict store (applyPatch a p).doctor_id
          (applyPatch a p).fecha_hora (applyPatch a p).duracion_minutos
          (some id) with
      | ConflictResult.NoConflict =>
        (RescheduleOutcome.rescheduled,
          store.map (fun b => if b.id == id then applyPatch b p else b))
      | ConflictResult.Conflict ids =>
        (RescheduleOutcome.scheduleConflict ids, store)

theorem conflictsWith_eq_true_iff (doctorId : Nat) (s e : Int)
    (ex : Option Nat) (c : Cita) :
    conflictsWith doctorId s e ex c = true ↔
      c.doctor_id = doctorId ∧ c.estado ≠ Estado.cancelada ∧
      (∀ eid, ex = some eid → c.id ≠ eid) ∧
      s < c.fecha_hora + (c.duracion_minutos : Int) ∧ c.fecha_hora < e := by
  cases ex with
  | none => simp [conflictsWith, overlaps, and_assoc]
  | some eid => simp [conflictsWith, overlaps, and_assoc]

theorem checkConflict_eq_noConflict_iff (store : Store) (doctorId : Nat)
    (s : Int) (d : Nat) (ex : Option Nat) :
    checkConflict store doctorId s d ex = ConflictResult.NoConflict ↔
      ∀ c ∈ store,
        conflictsWith doctorId s (s + (d : Int)) ex c = false := by
  unfold checkConflict
  by_cases h :
      (store.filter (conflictsWith doctorId s (s + (d : Int)) ex)).isEmpty
  · simp only [h, if_true]
    rw [List.isEmpty_iff, List.filter_eq_nil_iff] at h
    simp only [true_iff]
    intro c hc
    exact Bool.not_eq_true _ ▸ h c hc
  · simp only [h, if_false]
    rw [List.isEmpty_iff, List.filter_eq_nil_iff] at h
    push_neg at h
    obtain ⟨c, hc, hpc⟩ := h
    constructor
    · intro hcontra
      exact absurd hcontra (by simp)
    · intro hall
      exact absurd (hall c hc) (by simp [hpc])

theorem checkConflict_conflict_ids (store : Store) (doctorId : Nat)
    (s : Int) (d : Nat) (ex : Option Nat) (ids : List Nat)
    (h : checkConflict store doctorId s d ex = ConflictResult.Conflict ids) :
    ids = (store.filter
      (conflictsWith doctorId s (s + (d : Int)) ex)).map Cita.id := by
  unfold checkConflict at h
  by_cases hemp :
      (store.filter (conflictsWith doctorId s (s + (d : Int)) ex)).isEmpty
  · simp only [hemp, if_true] at h
    exact absurd h (by simp)
  · simp only [hemp, if_false] at h
    exact (ConflictResult.Conflict.injEq _ _ ▸ h).symm

/-- C1: `checkConflict(doctorId, startInstant, durationMinutes,
excludeAppointmentId?)` returns `Conflict` exactly when some stored
appointment with `doctor_id = doctorId`, status not cancelled, and id
different from the excluded one (when given) has an interval
`[s2, s2+d2)` overlapping `[startInstant, startInstant+durationMinutes)`
under half-open semantics (`s1 < e2 AND s2 < e1`); otherwise it returns
`NoConflict`. -/
theorem checkConflict_characterization (store : Store) (doctorId : Nat)
    (s : Int) (d : Nat) (ex : Option Nat) :
    ((∃ ids, checkConflict store doctorId s d ex =
        ConflictResult.Conflict ids) ↔
      ∃ c ∈ store, c.doctor_id = doctorId ∧
        c.estado ≠ Estado.cancelada ∧
        (∀ eid, ex = some eid → c.id ≠ eid) ∧
        s < c.fecha_hora + (c.duracion_minutos : Int) ∧
        c.fecha_hora < s + (d : Int)) ∧
    (checkConflict store doctorId s d ex = ConflictResult.NoConflict ↔
      ¬∃ c ∈ store, c.doctor_id = doctorId ∧
        c.estado ≠ Estado.cancelada ∧
        (∀ eid, ex = some eid → c.id ≠ eid) ∧
        s < c.fecha_hora + (c.duracion_minutos : Int) ∧
        c.fecha_hora < s + (d : Int)) := by
  have hno : checkConflict store doctorId s d ex =
      ConflictResult.NoConflict ↔
      ¬∃ c ∈ store, c.doctor_id = doctorId ∧
        c.estado ≠ Estado.cancelada ∧
        (∀ eid, ex = some eid → c.id ≠ eid) ∧
        s < c.fecha_hora + (c.duracion_minutos : Int) ∧
        c.fecha_hora < s + (d : Int) := by
    rw [checkConflict_eq_noConflict_iff]
    constructor
    · intro hall hex
      obtain ⟨c, hc, hprops⟩ := hex
      have hf := hall c hc
      have ht : conflictsWith doctorId s (s + (d : Int)) ex c = true :=
        (conflictsWith_eq_true_iff _ _ _ _ _).mpr hprops
      rw [hf] at ht
      exact Bool.false_ne_true ht
    · intro hnone c hc
      by_contra hne
      have ht : conflictsWith doctorId s (s + (d : Int)) ex c = true := by
        cases hcw : conflictsWith doctorId s (s + (d : Int)) ex c with
        | true => rfl
        | false => exact absurd hcw hne
      exact hnone ⟨c, hc, (conflictsWith_eq_true_iff _ _ _ _ _).mp ht⟩
  refine ⟨?_, hno⟩
  constructor
  · rintro ⟨ids, hids⟩
    by_contra hnone
    rw [← hno] at hnone
    rw [hids] at hnone
    exact absurd hnone (by simp)
  · intro hex
    cases hcc : checkConflict store doctorId s d ex with
    | NoConflict => exact absurd (hno.mp hcc) (by simp [hex])
    | Conflict ids => exact ⟨ids, rfl⟩

theorem bookOp_preserves_pairwise (st : Store) (c : Cita)
    (h : st.Pairwise nonOverlapping) :
    ((bookOp st c).2).Pairwise nonOverlapping := by
  unfold bookOp
  cases hcc : checkConflict st c.doctor_id c.fecha_hora c.duracion_minutos
      none with
  | Conflict ids => simpa using h
  | NoConflict =>
    simp only
    refine List.Pairwise.cons ?_ h
    intro b hb
    have hfalse := (checkConflict_eq_noConflict_iff st c.doctor_id
      c.fecha_hora c.duracion_minutos none).mp hcc b hb
    intro hdoc hcnc hbnc hov
    have : conflictsWith c.doctor_id c.fecha_hora
        (c.fecha_hora + (c.duracion_minutos : Int)) none b = true := by
      rw [conflictsWith_eq_true_iff]
      exact ⟨hdoc.symm, hbnc, by simp, hov.1, hov.2⟩
    rw [hfalse] at this
    exact absurd this (by simp)

/-- C2: for every sequence of booking operations (run against an initially
empty store, rejected requests writing nothing), the stored appointments
are pairwise non-overlapping whenever they share a doctor and neither is
cancelled — no doctor is double-booked. -/
theorem runBookings_no_double_booking (reqs : List Cita) :
    (runBookings reqs).Pairwise nonOverlapping := by
  unfold runBookings
  have key : ∀ (rs : List Cita) (st : Store), st.Pairwise nonOverlapping →
      (rs.foldl (fun st c => (bookOp st c).2) st).Pairwise nonOverlapping := by
    intro rs
    induction rs with
    | nil => intro st h; simpa using h
    | cons c cs ih =>
      intro st h
      exact ih _ (bookOp_preserves_pairwise st c h)
  exact key reqs [] (by simp)

/-- C3: whenever the conflict validator reports `Conflict` for a candidate
appointment, the booking operation rejects with `ScheduleConflict` naming
the overlapping appointment identifiers and performs no write, on both of
its paths.  Create path: the validator run on the candidate row makes
`bookOp` return the rejection and the unchanged store.  Reschedule path:
the validator run on the stored row with the patch applied, excluding the
appointment's own id, makes `rescheduleOp` return the rejection and the
unchanged store.  On both paths every named identifier belongs to a
stored appointment for the candidate's doctor, not cancelled (and, on
reschedule, distinct from the rescheduled appointment), whose interval
overlaps the candidate's. -/
theorem booking_conflict_rejects_no_write :
    (∀ (store : Store) (c : Cita) (ids : List Nat),
      checkConflict store c.doctor_id c.fecha_hora c.duracion_minutos
        none = ConflictResult.Conflict ids →
      bookOp store c = (BookOutcome.scheduleConflict ids, store) ∧
      ∀ i ∈ ids, ∃ a ∈ store, a.id = i ∧ a.doctor_id = c.doctor_id ∧
        a.estado ≠ Estado.cancelada ∧
        c.fecha_hora < a.fecha_hora + (a.duracion_minutos : Int) ∧
        a.fecha_hora < c.fecha_hora + (c.duracion_minutos : Int)) ∧
    (∀ (store : Store) (id : Nat) (p : CitaPatch) (a : Cita)
      (ids : List Nat),
      0 < id → ¬p.isEmpty = true →
      store.find? (fun b => b.id == id) = some a →
      checkConflict store (applyPatch a p).doctor_id
        (applyPatch a p).fecha_hora (applyPatch a p).duracion_minutos
        (some id) = ConflictResult.Conflict ids →
      rescheduleOp store id p =
        (RescheduleOutcome.scheduleConflict ids, store) ∧
      ∀ i ∈ ids, ∃ b ∈ store, b.id = i ∧ b.id ≠ id ∧
        b.doctor_id = (applyPatch a p).doctor_id ∧
        b.estado ≠ Estado.cancelada ∧
        (applyPatch a p).fecha_hora <
          b.fecha_hora + (b.duracion_minutos : Int) ∧
        b.fecha_hora < (applyPatch a p).fecha_hora +
          ((applyPatch a p).duracion_minutos : Int)) := by
  constructor
  · intro store c ids h
    constructor
    · unfold bookOp
      rw [h]
    · have hids := checkConflict_conflict_ids store c.doctor_id
        c.fecha_hora c.duracion_minutos none ids h
      intro i hi
      rw [hids] at hi
      simp only [List.mem_map] at hi
      obtain ⟨a, ha, hai⟩ := hi
      rw [List.mem_filter] at ha
      obtain ⟨hamem, hapred⟩ := ha
      obtain ⟨h1, h2, _, h4, h5⟩ :=
        (conflictsWith_eq_true_iff _ _ _ _ _).mp hapred
      exact ⟨a, hamem, hai, h1, h2, h4, h5⟩
  · intro store id p a ids hid hne hfind hcc
    constructor
    · have hid0 : ¬id = 0 := Nat.pos_iff_ne_zero.mp hid
      simp [rescheduleOp, hid0, hne, hfind, hcc]
    · have hids := checkConflict_conflict_ids store
        (applyPatch a p).doctor_id (applyPatch a p).fecha_hora
        (applyPatch a p).duracion_minutos (some id) ids hcc
      intro i hi
      rw [hids] at hi
      simp only [List.mem_map] at hi
      obtain ⟨b, hb, hbi⟩ := hi
      rw [List.mem_filter] at hb
      obtain ⟨hbmem, hbpred⟩ := hb
      obtain ⟨h1, h2, h3, h4, h5⟩ :=
        (conflictsWith_eq_true_iff _ _ _ _ _).mp hbpred
      exact ⟨b, hbmem, hbi, h3 id rfl, h1, h2, h4, h5⟩

/-- Witness for C3 at concrete inputs, against the store
`[citaA, citaD]` (doctor 7, `[840, 870)` and `[900, 930)`).  Create path:
the candidate `citaB` (doctor 7, `[855, 885)`) is rejected naming
appointment 1, store unchanged.  Reschedule path: moving appointment 4 to
start 855 (interval `[855, 885)`, own id excluded) is rejected naming
appointment 1, store unchanged. -/
theorem booking_conflict_rejects_no_write_witness :
    (bookOp [citaA, citaD] citaB =
      (BookOutcome.scheduleConflict [1], [citaA, citaD]) ∧
     ∀ i ∈ [1], ∃ a ∈ [citaA, citaD], a.id = i ∧
       a.doctor_id = citaB.doctor_id ∧ a.estado ≠ Estado.cancelada ∧
       citaB.fecha_hora < a.fecha_hora + (a.duracion_minutos : Int) ∧
       a.fecha_hora < citaB.fecha_hora + (citaB.duracion_minutos : Int)) ∧
    (rescheduleOp [citaA, citaD] 4 fechaPatch855 =
      (RescheduleOutcome.scheduleConflict [1], [citaA, citaD]) ∧
     ∀ i ∈ [1], ∃ b ∈ [citaA, citaD], b.id = i ∧ b.id ≠ 4 ∧
       b.doctor_id = (applyPatch citaD fechaPatch855).doctor_id ∧
       b.estado ≠ Estado.cancelada ∧
       (applyPatch citaD fechaPatch855).fecha_hora <
         b.fecha_hora + (b.duracion_minutos : Int) ∧
       b.fecha_hora < (applyPatch citaD fechaPatch855).fecha_hora +
         ((applyPatch citaD fechaPatch855).duracion_minutos : Int)) :=
  ⟨booking_conflict_rejects_no_write.1 [citaA, citaD] citaB [1]
     (by decide),
   booking_conflict_rejects_no_write.2 [citaA, citaD] 4 fechaPatch855
     citaD [1] (by decide) (by decide) (by decide) (by decide)⟩

/-- C4: a candidate for the same doctor starting exactly at a stored
non-cancelled appointment's end instant (back-to-back) is accepted:
under half-open semantics the adjacent intervals do not overlap, so the
validator returns `NoConflict`. -/
theorem back_to_back_accepted (a : Cita) (d : Nat)
    (h : a.estado ≠ Estado.cancelada) :
    checkConflict [a] a.doctor_id
      (a.fecha_hora + (a.duracion_minutos : Int)) d none =
      ConflictResult.NoConflict := by
  rw [checkConflict_eq_noConflict_iff]
  intro c hc
  rw [List.mem_singleton] at hc
  subst hc
  simp [conflictsWith, overlaps]

/-- Witness for C4 at a concrete input: `citaA` occupies `[840, 870)` for
doctor 7, and a 30-minute candidate for doctor 7 starting at 870 is
accepted. -/
theorem back_to_back_accepted_witness :
    checkConflict [citaA] citaA.doctor_id
      (citaA.fecha_hora + (citaA.duracion_minutos : Int)) 30 none =
      ConflictResult.NoConflict :=
  back_to_back_accepted citaA 30 (by decide)

/-- C5: rescheduling a stored appointment to the very interval it already
occupies, passing its own id as the excluded appointment, does not
self-conflict: provided no other stored non-cancelled appointment for the
same doctor overlaps that interval, the validator returns `NoConflict`. -/
theorem reschedule_same_interval_ok (store : Store) (a : Cita)
    (ha : a ∈ store)
    (hinv : ∀ b ∈ store, b.id ≠ a.id → b.doctor_id = a.doctor_id →
      b.estado ≠ Estado.cancelada →
      ¬(a.fecha_hora < b.fecha_hora + (b.duracion_minutos : Int) ∧
        b.fecha_hora < a.fecha_hora + (a.duracion_minutos : Int))) :
    checkConflict store a.doctor_id a.fecha_hora a.duracion_minutos
      (some a.id) = ConflictResult.NoConflict := by
  rw [checkConflict_eq_noConflict_iff]
  intro b hb
  by_contra hne
  have ht : conflictsWith a.doctor_id a.fecha_hora
      (a.fecha_hora + (a.duracion_minutos : Int)) (some a.id) b = true := by
    cases hcw : conflictsWith a.doctor_id a.fecha_hora
        (a.fecha_hora + (a.duracion_minutos : Int)) (some a.id) b with
    | true => rfl
    | false => exact absurd hcw hne
  obtain ⟨hdoc, hnc, hexcl, h1, h2⟩ :=
    (conflictsWith_eq_true_iff _ _ _ _ _).mp ht
  exact hinv b hb (hexcl a.id rfl) hdoc hnc ⟨h1, h2⟩

/-- Witness for C5 at a concrete input: the store holds `citaA`
(`[840, 870)`) and the disjoint `citaD` (`[900, 930)`); rescheduling
`citaA` to its own interval with itself excluded is accepted. -/
theorem reschedule_same_interval_ok_witness :
    checkConflict [citaA, citaD] citaA.doctor_id citaA.fecha_hora
      citaA.duracion_minutos (some citaA.id) = ConflictResult.NoConflict :=
  reschedule_same_interval_ok [citaA, citaD] citaA (by decide) (by decide)

/-- C6: the client-resolution step of the booking operation — a supplied
existing client id is used as-is; with no client id but new-client details
supplied, a uniqueness violation on the national id (`dni` already
stored) fails distinctly with `clientAlreadyExists`; with neither a
client id nor new-client fields, it fails with `clientRequired`. -/
theorem resolveCliente_cases :
    (∀ (clients : List Cliente) (freshId cid : Nat)
      (nm dni : Option String),
      resolveCliente clients freshId (some cid) nm dni =
        ClienteResolution.usedExisting cid) ∧
    (∀ (clients : List Cliente) (freshId : Nat) (nm dni : String),
      nm ≠ "" → dni ≠ "" → (∃ cl ∈ clients, cl.dni = dni) →
      resolveCliente clients freshId none (some nm) (some dni) =
        ClienteResolution.clientAlreadyExists) ∧
    (∀ (clients : List Cliente) (freshId : Nat),
      resolveCliente clients freshId none none none =
        ClienteResolution.clientRequired) := by
  refine ⟨?_, ?_, ?_⟩
  · intro clients freshId cid nm dni
    rfl
  · intro clients freshId nm dni hnm hdni hex
    have hany : clients.any (fun cl => cl.dni == dni) = true := by
      rw [List.any_eq_true]
      obtain ⟨cl, hcl, hdnieq⟩ := hex
      exact ⟨cl, hcl, by simp [hdnieq]⟩
    unfold resolveCliente
    show (if nm = "" ∨ dni = "" then ClienteResolution.clientRequired
      else if clients.any (fun cl => cl.dni == dni) then
        ClienteResolution.clientAlreadyExists
      else ClienteResolution.createdNew freshId) =
      ClienteResolution.clientAlreadyExists
    rw [if_neg (by simp [hnm, hdni]), if_pos hany]
  · intro clients freshId
    rfl

/-- Witness for C6 at concrete inputs: id 3 is used as-is; creating "Ana"
with dni "123" against a store already holding that dni fails with
`clientAlreadyExists`; no client data at all fails with
`clientRequired`. -/
theorem resolveCliente_cases_witness :
    resolveCliente [] 5 (some 3) none none =
      ClienteResolution.usedExisting 3 ∧
    resolveCliente [clienteAna] 5 none (some "Ana") (some "123") =
      ClienteResolution.clientAlreadyExists ∧
    resolveCliente [] 5 none none none =
      ClienteResolution.clientRequired :=
  ⟨resolveCliente_cases.1 [] 5 3 none none,
   resolveCliente_cases.2.1 [clienteAna] 5 "Ana" "123" (by decide)
     (by decide) ⟨clienteAna, by decide, rfl⟩,
   resolveCliente_cases.2.2 [] 5⟩

/-- C7: a reschedule changes only the supplied fields — when the update
succeeds, rows not matching the id are returned unchanged, the matching
row is the stored row patched with exactly the supplied columns, and
every column the patch does not supply (and the id and client reference,
which the patch schema cannot carry) retains its prior value. -/
theorem updateCita_frame (store : Store) (id : Nat) (p : CitaPatch)
    (updated : Store)
    (h : updateCita store id p = UpdateResult.ok updated) :
    updated.length = store.length ∧
    (∀ (i : Nat) (hi : i < store.length) (hj : i < updated.length),
      ((store.get ⟨i, hi⟩).id ≠ id →
        updated.get ⟨i, hj⟩ = store.get ⟨i, hi⟩) ∧
      ((store.get ⟨i, hi⟩).id = id →
        updated.get ⟨i, hj⟩ = applyPatch (store.get ⟨i, hi⟩) p)) ∧
    (∀ c : Cita,
      (applyPatch c p).id = c.id ∧
      (applyPatch c p).cliente_id = c.cliente_id ∧
      (p.fecha_hora = none → (applyPatch c p).fecha_hora = c.fecha_hora) ∧
      (p.timezone = none → (applyPatch c p).timezone = c.timezone) ∧
      (p.descripcion = none →
        (applyPatch c p).descripcion = c.descripcion) ∧
      (p.estado = none → (applyPatch c p).estado = c.estado) ∧
      (p.duracion_minutos = none →
        (applyPatch c p).duracion_minutos = c.duracion_minutos) ∧
      (p.doctor_id = none → (applyPatch c p).doctor_id = c.doctor_id)) := by
  have hupd : updated = store.map (fun c =>
      if c.id == id then applyPatch c p else c) := by
    unfold updateCita at h
    split_ifs at h
    all_goals injection h with h4
    all_goals exact h4.symm
  subst hupd
  refine ⟨List.length_map _ _, ?_, ?_⟩
  · intro i hi hj
    constructor
    · intro hne
      simp only [List.get_eq_getElem, List.getElem_map]
      rw [if_neg (by simpa using hne)]
    · intro heq
      simp only [List.get_eq_getElem, List.getElem_map]
      rw [if_pos (by simpa using heq)]
  · intro c
    refine ⟨rfl, rfl, ?_, ?_, ?_, ?_, ?_, ?_⟩
    all_goals intro hnone
    all_goals simp [applyPatch, hnone]

/-- Witness for C7 at a concrete input: patching appointment 1 of the
store `[citaA]` with only a new `fecha_hora` of 900 succeeds, and the
frame conditions hold for that store and patch. -/
theorem updateCita_frame_witness :
    ([{ citaA with fecha_hora := 900 }] : Store).length =
      ([citaA] : Store).length ∧
    (∀ (i : Nat) (hi : i < ([citaA] : Store).length)
      (hj : i < ([{ citaA with fecha_hora := 900 }] : Store).length),
      ((([citaA] : Store).get ⟨i, hi⟩).id ≠ 1 →
        ([{ citaA with fecha_hora := 900 }] : Store).get ⟨i, hj⟩ =
          ([citaA] : Store).get ⟨i, hi⟩) ∧
      ((([citaA] : Store).get ⟨i, hi⟩).id = 1 →
        ([{ citaA with fecha_hora := 900 }] : Store).get ⟨i, hj⟩ =
          applyPatch (([citaA] : Store).get ⟨i, hi⟩) fechaPatch)) ∧
    (∀ c : Cita,
      (applyPatch c fechaPatch).id = c.id ∧
      (applyPatch c fechaPatch).cliente_id = c.cliente_id ∧
      (fechaPatch.fecha_hora = none →
        (applyPatch c fechaPatch).fecha_hora = c.fecha_hora) ∧
      (fechaPatch.timezone = none →
        (applyPatch c fechaPatch).timezone = c.timezone) ∧
      (fechaPatch.descripcion = none →
        (applyPatch c fechaPatch).descripcion = c.descripcion) ∧
      (fechaPatch.estado = none →
        (applyPatch c fechaPatch).estado = c.estado) ∧
      (fechaPatch.duracion_minutos = none →
        (applyPatch c fechaPatch).duracion_minutos = c.duracion_minutos) ∧
      (fechaPatch.doctor_id = none →
        (applyPatch c fechaPatch).doctor_id = c.doctor_id)) :=
  updateCita_frame [citaA] 1 fechaPatch [{ citaA with fecha_hora := 900 }]
    (by decide)

/-- C8: a direct status update to any of the five statuses is accepted
whatever the appointment's current status: for every stored appointment
and every target status, the patch supplying only `estado` succeeds and
sets the status to the target — no transition within the enum is
blocked. -/
theorem estado_update_unrestricted (c : Cita) (t : Estado)
    (h : 0 < c.id) :
    updateCita [c] c.id (estadoPatch t) =
      UpdateResult.ok [{ c with estado := t }] := by
  unfold updateCita
  rw [if_neg (Nat.pos_iff_ne_zero.mp h)]
  rw [if_neg (by simp [estadoPatch, CitaPatch.isEmpty])]
  rw [if_pos (by simp)]
  simp [applyPatch, estadoPatch]

/-- Witness for C8 at a concrete input: appointment 3 is `completada`, and
the direct set back to `programada` (completed → scheduled) succeeds. -/
theorem estado_update_unrestricted_witness :
    updateCita [citaCompleted] citaCompleted.id
      (estadoPatch Estado.programada) =
      UpdateResult.ok [{ citaCompleted with estado := Estado.programada }] :=
  estado_update_unrestricted citaCompleted Estado.programada (by decide)

/-- C9: an appointment created without a duration is persisted with
`duracion_minutos = 30` (the Zod default), and a supplied duration is
accepted exactly when it is a positive integer, in which case it is
persisted as given. -/
theorem citaInsertRow_duracion (body : CitaCreateBody)
    (clienteId rowId : Nat) :
    (body.duracion_minutos = none →
      ∃ c, citaInsertRow body clienteId rowId = some c ∧
        c.duracion_minutos = 30) ∧
    (∀ n : Int, body.duracion_minutos = some n →
      (0 < n → ∃ c, citaInsertRow body clienteId rowId = some c ∧
        (c.duracion_minutos : Int) = n) ∧
      (n ≤ 0 → citaInsertRow body clienteId rowId = none)) := by
  constructor
  · intro hnone
    have hrow : citaInsertRow body clienteId rowId = some
        { id := rowId
          cliente_id := clienteId
          doctor_id := body.doctor_id
          fecha_hora := body.fecha_hora
          duracion_minutos := 30
          estado := body.estado.getD Estado.programada
          descripcion := body.descripcion
          timezone := body.timezone } := by
      simp [citaInsertRow, parseDuracionMinutos, hnone]
    exact ⟨_, hrow, rfl⟩
  · intro n hsome
    constructor
    · intro hpos
      have hrow : citaInsertRow body clienteId rowId = some
          { id := rowId
            cliente_id := clienteId
            doctor_id := body.doctor_id
            fecha_hora := body.fecha_hora
            duracion_minutos := n.toNat
            estado := body.estado.getD Estado.programada
            descripcion := body.descripcion
            timezone := body.timezone } := by
        simp [citaInsertRow, parseDuracionMinutos, hsome, hpos]
      exact ⟨_, hrow, Int.toNat_of_nonneg hpos.le⟩
    · intro hneg
      have hlt : ¬(0 < n) := not_lt.mpr hneg
      simp [citaInsertRow, parseDuracionMinutos, hsome, hlt]

/-- Witness for C9 at concrete inputs: a body with no duration inserts a
row with duration 30; duration 45 is accepted as 45; duration 0 is
rejected. -/
theorem citaInsertRow_duracion_witness :
    (∃ c, citaInsertRow bodyNoDur 10 1 = some c ∧
      c.duracion_minutos = 30) ∧
    (∃ c, citaInsertRow { bodyNoDur with duracion_minutos := some 45 }
      10 1 = some c ∧ (c.duracion_minutos : Int) = 45) ∧
    citaInsertRow { bodyNoDur with duracion_minutos := some 0 } 10 1 =
      none :=
  ⟨(citaInsertRow_duracion bodyNoDur 10 1).1 rfl,
   ((citaInsertRow_duracion { bodyNoDur with duracion_minutos := some 45 }
      10 1).2 45 rfl).1 (by decide),
   ((citaInsertRow_duracion { bodyNoDur with duracion_minutos := some 0 }
      10 1).2 0 rfl).2 (by decide)⟩

/-- C10: deleting by a well-formed positive id that matches no stored
appointment still responds 204 No Content and leaves the store unchanged
— the delete handler has no not-found outcome. -/
theorem deleteCita_missing_id (store : Store) (id : Nat) (h0 : 0 < id)
    (hmiss : ∀ c ∈ store, c.id ≠ id) :
    deleteCita store id = (DeleteResult.noContent, store) := by
  unfold deleteCita
  rw [if_neg (Nat.pos_iff_ne_zero.mp h0)]
  rw [Prod.mk.injEq]
  refine ⟨rfl, ?_⟩
  rw [List.filter_eq_self]
  intro c hc
  simpa using hmiss c hc

/-- Witness for C10 at a concrete input: deleting id 99 from the store
`[citaA]` (whose only id is 1) responds 204 and changes nothing. -/
theorem deleteCita_missing_id_witness :
    deleteCita [citaA] 99 = (DeleteResult.noContent, [citaA]) :=
  deleteCita_missing_id [citaA] 99 (by decide) (by decide)

end Vintex
